import Mathlib

/-!
Verification development for the structural-health monitoring dashboard
(procedural 3D structure generator and viewport controller,
src/components/dashboard/DigitalTwinViewer.jsx, second revision of the file:
the variant defining createWarehouse).

Shallow embedding conventions:
* JavaScript numbers are modelled as rationals (ℚ); the placement logic uses
  only +, -, *, /, comparisons and Math.round / Math.abs on decimal literals,
  so ℚ is exact for it.  Transcendental library calls (Math.cos, Math.PI,
  Math.sin) reach the registry only in two cosmetic positions / the marker
  animation; they are abstracted as function parameters of the embedding.
* Math.random() is modelled as an ambient stream rand : ℕ → ℚ consumed in
  call order, one index per draw.
* Mutation of Three.js objects is modelled by explicit state passing.
-/

namespace DigitalTwin

/-- JavaScript Math.round on a rational (round half up, as for the
positive arguments that occur here). -/
def jsRound (q : ℚ) : ℤ := Rat.floor (q + 1/2)

/-- JavaScript Number.prototype.toFixed 2, kept as a rational value
(the source formats it into a display string). -/
def toFixed2 (q : ℚ) : ℚ := (Rat.floor (q * 100 + 1/2) : ℚ) / 100

/-- JavaScript truthiness of a possibly-absent numeric field
(undefined and 0 are falsy). -/
def jsTruthy : Option ℚ → Bool
  | none => false
  | some q => q != 0

/-- Stud cross-section, source constant studS = 0.05. -/
def studS : ℚ := 5/100

/-- Steel member cross-section, source constant bS = 0.08. -/
def bS : ℚ := 8/100

/-- Nominal stud pitch, source constant studSpacing = 0.45. -/
def studSpacing : ℚ := 45/100

/-- A declared wall opening, source shape start / end / headerH / sillH.
The source field named end is called stop here (end is a Lean keyword). -/
structure Opening where
  start : ℚ
  stop : ℚ
  headerH : Option ℚ
  sillH : Option ℚ
  deriving Repr, DecidableEq

/-- Role of a member emitted by buildWallStuds, identified by the
call site of addSilentFraming in the source loop body. -/
inductive StudRole
  | nominal
  | trimmer
  | jack
  | header
  | sill
  deriving Repr, DecidableEq

/-- A wall member placed by buildWallStuds: its role and the centre
position handed to addSilentFraming. -/
structure PlacedStud where
  role : StudRole
  pos : ℚ × ℚ × ℚ
  deriving Repr, DecidableEq

/-- First opening whose padded range [start - studS, end + studS] contains
pos, as in the source isInOpening loop. -/
def isInOpening (pos : ℚ) (openings : List Opening) : Option Opening :=
  openings.find? (fun op => pos ≥ op.start - studS && pos ≤ op.stop + studS)

/-- Number of iterations of the counted loop
for (p = a; p <= b; p += step), for step > 0. -/
def stepCount (a b step : ℚ) : ℕ :=
  if a ≤ b then (Rat.floor ((b - a) / step)).toNat + 1 else 0

/-- The successive loop values a, a + step, a + 2 step, ... ≤ b. -/
def gridPoints (a b step : ℚ) : List ℚ :=
  (List.range (stepCount a b step)).map (fun k => a + (k : ℚ) * step)

/-- One iteration of the buildWallStuds loop body at running coordinate p:
either the nominal stud, or (inside an opening) the trimmer / jack /
header / sill members whose guards fire at p. -/
def wallBodyAt (fixedCoord height baseY : ℚ) (openings : List Opening)
    (isXAxis : Bool) (p : ℚ) : List PlacedStud :=
  match isInOpening p openings with
  | some op =>
    (if |p - op.start| < studSpacing then
      let tpos := if isXAxis
        then (op.start - studS, baseY + height / 2, fixedCoord)
        else (fixedCoord, baseY + height / 2, op.start - studS)
      [⟨.trimmer, tpos⟩] ++
      (match op.headerH with
       | some hh =>
         if hh ≠ 0 ∧ hh - baseY > 0 then
           let jackH := hh - baseY
           let jpos := if isXAxis
             then (op.start + studS, baseY + jackH / 2, fixedCoord)
             else (fixedCoord, baseY + jackH / 2, op.start + studS)
           [⟨.jack, jpos⟩]
         else []
       | none => [])
    else []) ++
    (if |p - op.stop| < studSpacing then
      let tpos := if isXAxis
        then (op.stop + studS, baseY + height / 2, fixedCoord)
        else (fixedCoord, baseY + height / 2, op.stop + studS)
      [⟨.trimmer, tpos⟩] ++
      (match op.headerH with
       | some hh =>
         if hh ≠ 0 ∧ hh - baseY > 0 then
           let jackH := hh - baseY
           let jpos := if isXAxis
             then (op.stop - studS, baseY + jackH / 2, fixedCoord)
             else (fixedCoord, baseY + jackH / 2, op.stop - studS)
           [⟨.jack, jpos⟩]
         else []
       | none => [])
    else []) ++
    (if jsTruthy op.headerH ∧ |p - (op.start + op.stop) / 2| < studSpacing / 2 then
      let hh := op.headerH.getD 0
      let hpos := if isXAxis
        then ((op.start + op.stop) / 2, hh, fixedCoord)
        else (fixedCoord, hh, (op.start + op.stop) / 2)
      [⟨.header, hpos⟩] ++
      (if jsTruthy op.sillH then
        let sh := op.sillH.getD 0
        let spos := if isXAxis
          then ((op.start + op.stop) / 2, sh, fixedCoord)
          else (fixedCoord, sh, (op.start + op.stop) / 2)
        [⟨.sill, spos⟩]
      else [])
    else [])
  | none =>
    let npos := if isXAxis
      then (p, baseY + height / 2, fixedCoord)
      else (fixedCoord, baseY + height / 2, p)
    [⟨.nominal, npos⟩]

/-- The source buildWallStuds: iterate the nominal pitch over the wall
running range, emitting members per wallBodyAt.  The axis argument is kept
from the source signature although its body never reads it. -/
def buildWallStuds (_axis : String) (fixedCoord rangeStart rangeEnd height
    baseY : ℚ) (openings : List Opening) (isXAxis : Bool) : List PlacedStud :=
  (gridPoints rangeStart rangeEnd studSpacing).flatMap
    (wallBodyAt fixedCoord height baseY openings isXAxis)

/-- Main section width, source W = 14. -/
def W : ℚ := 14

/-- Main section depth, source D = 16. -/
def D : ℚ := 16

/-- Wall (eave) height, source eaveH = 5.2. -/
def eaveH : ℚ := 26/5

/-- Gable rise, source ridgeH = 3.2. -/
def ridgeH : ℚ := 16/5

/-- Bay pitch, source bay = 2. -/
def bay : ℚ := 2

/-- Second floor height, source floorTwoH = 2.8. -/
def floorTwoH : ℚ := 14/5

/-- Half width hW = W / 2. -/
def hW : ℚ := W / 2

/-- Half depth hD = D / 2. -/
def hD : ℚ := D / 2

/-- Ground floor front wall openings (two windows and the door). -/
def frontOpenings : List Opening :=
  [⟨-4, -22/10, some (42/10), some 1⟩,
   ⟨-5/10, 5/10, some (46/10), none⟩,
   ⟨22/10, 4, some (42/10), some 1⟩]

/-- Ground floor back wall openings. -/
def backOpenings : List Opening :=
  [⟨-3, -15/10, some (42/10), some (12/10)⟩,
   ⟨2, 35/10, some (42/10), some (12/10)⟩]

/-- Ground floor left wall openings. -/
def leftOpenings : List Opening :=
  [⟨-5, -32/10, some (42/10), some 1⟩,
   ⟨-1, 1, some (46/10), none⟩,
   ⟨3, 5, some (42/10), some 1⟩]

/-- Ground floor right wall openings. -/
def rightOpenings : List Opening :=
  [⟨-5, -35/10, some (42/10), some 1⟩,
   ⟨35/10, 5, some (42/10), some 1⟩]

/-- Upper floor front wall openings. -/
def upperOpeningsFront : List Opening :=
  [⟨-4, -25/10, some (floorTwoH + 22/10), some (floorTwoH + 8/10)⟩,
   ⟨-8/10, 8/10, some (floorTwoH + 22/10), some (floorTwoH + 8/10)⟩,
   ⟨25/10, 4, some (floorTwoH + 22/10), some (floorTwoH + 8/10)⟩]

/-- Upper floor back wall openings. -/
def upperOpeningsBack : List Opening :=
  [⟨-3, -15/10, some (floorTwoH + 22/10), some (floorTwoH + 8/10)⟩,
   ⟨15/10, 3, some (floorTwoH + 22/10), some (floorTwoH + 8/10)⟩]

/-- Upper floor left wall openings. -/
def upperOpeningsL : List Opening :=
  [⟨-5, -35/10, some (floorTwoH + 22/10), some (floorTwoH + 8/10)⟩,
   ⟨1, 3, some (floorTwoH + 22/10), some (floorTwoH + 8/10)⟩]

/-- Upper floor right wall openings. -/
def upperOpeningsR : List Opening :=
  [⟨-4, -25/10, some (floorTwoH + 22/10), some (floorTwoH + 8/10)⟩,
   ⟨25/10, 4, some (floorTwoH + 22/10), some (floorTwoH + 8/10)⟩]

/-- Upper wall stud height, source upperH = eaveH - floorTwoH. -/
def upperH : ℚ := eaveH - floorTwoH

/-- One invocation of buildWallStuds as written in the source. -/
structure WallCall where
  axis : String
  fixedCoord : ℚ
  rangeStart : ℚ
  rangeEnd : ℚ
  height : ℚ
  baseY : ℚ
  openings : List Opening
  isXAxis : Bool
  deriving Repr, DecidableEq

/-- The eight perimeter-wall invocations of buildWallStuds, in source
order (ground floor four walls, then upper floor four walls). -/
def wallCalls : List WallCall :=
  [⟨"x", -hD, -hW, hW, floorTwoH, 0, frontOpenings, true⟩,
   ⟨"x", hD, -hW, hW, floorTwoH, 0, backOpenings, true⟩,
   ⟨"z", -hW, -hD, hD, floorTwoH, 0, leftOpenings, false⟩,
   ⟨"z", hW, -hD, hD, floorTwoH, 0, rightOpenings, false⟩,
   ⟨"x", -hD, -hW, hW, upperH, floorTwoH, upperOpeningsFront, true⟩,
   ⟨"x", hD, -hW, hW, upperH, floorTwoH, upperOpeningsBack, true⟩,
   ⟨"z", -hW, -hD, hD, upperH, floorTwoH, upperOpeningsL, false⟩,
   ⟨"z", hW, -hD, hD, upperH, floorTwoH, upperOpeningsR, false⟩]

/-- Run one wall invocation. -/
def runWall (w : WallCall) : List PlacedStud :=
  buildWallStuds w.axis w.fixedCoord w.rangeStart w.rangeEnd w.height
    w.baseY w.openings w.isXAxis

/-- Running coordinate of a placed member along the wall axis. -/
def runCoord (isXAxis : Bool) (s : PlacedStud) : ℚ :=
  if isXAxis then s.pos.1 else s.pos.2.2

/-! ### Selectable registry of createWarehouse

The registry (the components array) collects exactly the meshes added by
addFraming, in call order; addSilentFraming, addDecor, addRod and addLine
never touch the components array, the id counter or Math.random, so they
are omitted from the registry model (the wall studs they emit are modelled
above by buildWallStuds).  The three display-label strings passed to
componentData (dimensions, weight, loadRating) are pure formatting of
constants and are not modelled. -/

/-- Material instance handed to a mesh.  The two shared
MeshStandardMaterial objects used by addFraming call sites. -/
inductive MatName
  | framingMat
  | heavyFramingMat
  deriving Repr, DecidableEq

/-- A registry member: the userData attached by addFraming plus the
shared material instance of the mesh. -/
structure Member where
  id : String
  type : String
  mat : MatName
  position : ℚ × ℚ × ℚ
  sensors : ℕ
  readings : List (String × ℚ)
  selectable : Bool
  deriving Repr, DecidableEq

/-- Generator state: the id counter (source let _id = 0), the next
unconsumed index into the Math.random stream, and the components array. -/
structure GenState where
  idCounter : ℕ
  rndIx : ℕ
  components : List Member
  deriving Repr

/-- Identifier argument of an addFraming call site: nextId with a type
prefix, or the one hard-coded literal RDG-1. -/
inductive IdSpec
  | counter (pfx : String)
  | literal (s : String)
  deriving Repr, DecidableEq

/-- The two Math.random draws of one componentData call: the Stress and
Temp live readings (values kept as rationals; the source formats them
into display strings). -/
def componentDataReadings (rand : ℕ → ℚ) (k : ℕ) : List (String × ℚ) :=
  [("Stress", toFixed2 (1/2 + rand k * (8/10))),
   ("Temp", (jsRound (65 + rand (k + 1) * 8) : ℚ))]

/-- Sensor count of componentData: 2 for a structural column, else 1. -/
def componentSensors (type : String) : ℕ :=
  if type == "Structural Column" then 2 else 1

/-- One addFraming call: assign the id, consume two random draws for the
readings, and append the member to the components array. -/
def addFraming (rand : ℕ → ℚ) (st : GenState) (mat : MatName)
    (pos : ℚ × ℚ × ℚ) (type : String) (idSpec : IdSpec) : GenState :=
  let idPair : String × ℕ :=
    match idSpec with
    | .counter pfx => (pfx ++ "-" ++ toString (st.idCounter + 1), st.idCounter + 1)
    | .literal s => (s, st.idCounter)
  { idCounter := idPair.2
    rndIx := st.rndIx + 2
    components := st.components ++
      [⟨idPair.1, type, mat, pos, componentSensors type,
        componentDataReadings rand st.rndIx, true⟩] }

/-- Bays along the depth, source numBaysD = Math.round(D / bay). -/
def numBaysD : ℕ := (jsRound (D / bay)).toNat

/-- Bays along the width, source numBaysW = Math.round(W / bay). -/
def numBaysW : ℕ := (jsRound (W / bay)).toNat

/-- Apex height apexH = eaveH + ridgeH. -/
def apexH : ℚ := eaveH + ridgeH

/-- Curved wing wall height, source curveHeight = 4.8. -/
def curveHeight : ℚ := 24/5

/-- Curved wing radius, source curveRadius = 7. -/
def curveRadius : ℚ := 7

/-- The selectable registry produced by one createWarehouse run.
rand abstracts the Math.random stream (consumed in call order), mcos
abstracts Math.cos and piQ abstracts Math.PI (both reach the registry only
in the two curved-wing connection-column positions). -/
def createWarehouse (rand : ℕ → ℚ) (mcos : ℚ → ℚ) (piQ : ℚ) : List Member :=
  let st0 : GenState := ⟨0, 0, []⟩
  -- Corner Columns: for x of [-hW, hW], for z of [-hD, hD]
  let st1 := [-hW, hW].foldl (fun st x =>
    [-hD, hD].foldl (fun st z =>
      addFraming rand st .heavyFramingMat (x, eaveH / 2, z)
        "Structural Column" (.counter "COL")) st) st0
  -- Bay Columns at bay spacing along depth: zi = 1 .. numBaysD - 1
  let st2 := (List.range' 1 (numBaysD - 1)).foldl (fun st zi =>
    let z := -hD + (zi : ℚ) * bay
    [-hW, hW].foldl (fun st x =>
      addFraming rand st .framingMat (x, eaveH / 2, z)
        "Wall Stud" (.counter "STD")) st) st1
  -- Bay Columns along width: xi = 1 .. numBaysW - 1
  let st3 := (List.range' 1 (numBaysW - 1)).foldl (fun st xi =>
    let x := -hW + (xi : ℚ) * bay
    [-hD, hD].foldl (fun st z =>
      addFraming rand st .framingMat (x, eaveH / 2, z)
        "Wall Stud" (.counter "STD")) st) st2
  -- Top Plates: two along width, two along depth
  let st4 := [-hD, hD].foldl (fun st z =>
    addFraming rand st .heavyFramingMat (0, eaveH, z)
      "Top Plate" (.counter "TP")) st3
  let st5 := [-hW, hW].foldl (fun st x =>
    addFraming rand st .heavyFramingMat (x, eaveH, 0)
      "Top Plate" (.counter "TP")) st4
  -- Second floor joists: for z = -hD; z <= hD; z += bay
  let st6 := (gridPoints (-hD) hD bay).foldl (fun st z =>
    addFraming rand st .framingMat (0, floorTwoH, z)
      "Floor Joist" (.counter "FJ")) st5
  -- Roof trusses: for z = -hD; z <= hD; z += trussSpacing (= bay):
  -- two rafters and the bottom chord per truss line
  let st7 := (gridPoints (-hD) hD bay).foldl (fun st z =>
    let st := addFraming rand st .framingMat (-W / 4, eaveH + ridgeH / 2, z)
      "Roof Rafter" (.counter "RFT")
    let st := addFraming rand st .framingMat (W / 4, eaveH + ridgeH / 2, z)
      "Roof Rafter" (.counter "RFT")
    addFraming rand st .framingMat (0, eaveH, z)
      "Ceiling Joist" (.counter "CJ")) st6
  -- Ridge beam, hard-coded id RDG-1
  let st8 := addFraming rand st7 .heavyFramingMat (0, apexH, 0)
    "Ridge Board" (.literal "RDG-1")
  -- Curved wing connection columns at connZ1 / connZ2
  let connZ1 := mcos (-(piQ * (4/10))) * curveRadius
  let connZ2 := mcos (piQ * (4/10)) * curveRadius
  let st9 := addFraming rand st8 .heavyFramingMat (hW, curveHeight / 2, connZ1)
    "Structural Column" (.counter "COL")
  let st10 := addFraming rand st9 .heavyFramingMat (hW, curveHeight / 2, connZ2)
    "Structural Column" (.counter "COL")
  st10.components

/-- Projection of a member to the id, kind and world position the
determinism property compares. -/
def memberKey (m : Member) : String × String × (ℚ × ℚ × ℚ) :=
  (m.id, m.type, m.position)

/-! ### External records and entity markers

Supplied panel / sensor / alert records.  The position field is an Option:
the viewer receives external data and a record may lack it; reading a
coordinate off an absent object is a JavaScript TypeError, modelled by
Except.error. -/

/-- An externally supplied panel record (the fields the viewer reads). -/
structure Panel where
  panel_id : String
  status : String
  position : Option (ℚ × ℚ × ℚ)
  deriving Repr, DecidableEq

/-- An externally supplied sensor record (the fields the viewer reads). -/
structure Sensor where
  sensor_id : String
  status : String
  panel_id : String
  position : Option (ℚ × ℚ × ℚ)
  deriving Repr, DecidableEq

/-- An externally supplied alert record (the fields the projection
loop reads). -/
structure AlertRec where
  id : String
  coordinates : Option (ℚ × ℚ × ℚ)
  deriving Repr, DecidableEq

/-- Panel statusColors table with the JavaScript fallback
statusColors[status] || 0x64748b. -/
def panelStatusColor (s : String) : ℕ :=
  if s == "good" then 0x10b981
  else if s == "warning" then 0xf59e0b
  else if s == "critical" then 0xef4444
  else if s == "offline" then 0x64748b
  else 0x64748b

/-- Sensor statusColors table with fallback 0x10b981. -/
def sensorStatusColor (s : String) : ℕ :=
  if s == "online" then 0x10b981
  else if s == "warning" then 0xf59e0b
  else if s == "critical" then 0xef4444
  else if s == "offline" then 0x64748b
  else 0x10b981

/-- A constructed panel marker: the group userData, its position, the
indicator colour and the mutable pulsing-ring state. -/
structure PanelMarker where
  panel : Panel
  position : ℚ × ℚ × ℚ
  color : ℕ
  ringScale : ℚ × ℚ × ℚ
  ringOpacity : ℚ
  deriving Repr, DecidableEq

/-- A constructed sensor marker. -/
structure SensorMarker where
  sensor : Sensor
  position : ℚ × ℚ × ℚ
  color : ℕ
  meshScale : ℚ
  deriving Repr, DecidableEq

/-- The panels.forEach marker-construction loop.  The source reads
panel.position.x unconditionally, so a record with no position object
throws; a present position is used as is. -/
def buildPanelMarkers (panels : List Panel) : Except String (List PanelMarker) :=
  panels.foldl (fun acc p =>
    match acc with
    | .error e => .error e
    | .ok ms =>
      match p.position with
      | none => .error "TypeError: cannot read properties of undefined"
      | some pos =>
        .ok (ms ++ [⟨p, pos, panelStatusColor p.status, (1, 1, 1), 3/10⟩]))
    (.ok [])

/-- The sensors.forEach marker-construction loop (same shape). -/
def buildSensorMarkers (sensors : List Sensor) : Except String (List SensorMarker) :=
  sensors.foldl (fun acc s =>
    match acc with
    | .error e => .error e
    | .ok ms =>
      match s.position with
      | none => .error "TypeError: cannot read properties of undefined"
      | some pos =>
        .ok (ms ++ [⟨s, pos, sensorStatusColor s.status, 1⟩]))
    (.ok [])

/-- A projected 2D overlay position produced by updateMarkerPositions. -/
structure MarkerPos where
  id : String
  x : ℚ
  y : ℚ
  visible : Bool
  deriving Repr, DecidableEq

/-- The updateMarkerPositions loop.  proj abstracts vector.project
(camera projection to normalised device coordinates); the loop reads
alert.coordinates.x unconditionally, so an absent coordinates object
throws. -/
def updateMarkerPositions (proj : ℚ × ℚ × ℚ → ℚ × ℚ × ℚ)
    (rectW rectH : ℚ) (alerts : List AlertRec) : Except String (List MarkerPos) :=
  alerts.foldl (fun acc a =>
    match acc with
    | .error e => .error e
    | .ok ms =>
      match a.coordinates with
      | none => .error "TypeError: cannot read properties of undefined"
      | some c =>
        let v := proj c
        .ok (ms ++ [⟨a.id, (v.1 * (1/2) + 1/2) * rectW,
          (-v.2.1 * (1/2) + 1/2) * rectH, decide (v.2.2 < 1)⟩]))
    (.ok [])

/-! ### Render-loop marker animation and the ping effect -/

/-- Ambient per-frame ring animation of one panel marker (the source
uses time = Date.now() * 0.001 seconds; msin abstracts Math.sin). -/
def ambientRing (msin : ℚ → ℚ) (t : ℚ) (m : PanelMarker) : PanelMarker :=
  { m with
    ringScale := (1 + msin (t * 2) * (1/10), 1 + msin (t * 2) * (1/10), 1)
    ringOpacity := 3/10 + msin (t * 3) * (1/10) }

/-- The ping mutation applied to the found marker: scale.setScalar and
the fading opacity, with pingTime = (Date.now() % 2000) / 2000. -/
def pingUpdate (now : ℕ) (m : PanelMarker) : PanelMarker :=
  let pingTime : ℚ := ((now % 2000 : ℕ) : ℚ) / 2000
  { m with
    ringScale := (1 + pingTime * 3, 1 + pingTime * 3, 1 + pingTime * 3)
    ringOpacity := 6/10 * (1 - pingTime) }

/-- Mutate the first marker whose panel_id matches, as the source
panelMarkersRef.current.find followed by the guarded mutation does;
no match leaves every marker untouched. -/
def applyPingFirst (pid : String) (upd : PanelMarker → PanelMarker) :
    List PanelMarker → List PanelMarker
  | [] => []
  | m :: ms =>
    if m.panel.panel_id == pid then upd m :: ms
    else m :: applyPingFirst pid upd ms

/-- One render tick of the panel-ring animation: the ambient pulse on
every ring, then the ping effect if pingingPanelId is set. -/
def animateRings (msin : ℚ → ℚ) (pinging : Option String) (now : ℕ)
    (markers : List PanelMarker) : List PanelMarker :=
  let ms := markers.map (ambientRing msin ((now : ℚ) / 1000))
  match pinging with
  | none => ms
  | some pid => applyPingFirst pid (pingUpdate now) ms

/-- The pingingPanelId state as a function of time: onPing sets it to
the panel id of the pinged sensor at time t0 and schedules
setPingingPanelId(null) with setTimeout 2000 ms. -/
def pingingPanelIdAt (pid : String) (t0 now : ℕ) : Option String :=
  if now < t0 + 2000 then some pid else none

/-! ### Interaction state machine

The handler closures mutate refs and React state; both are folded into
one record.  Ray-cast outcomes depend on camera and geometry outside the
embedding, so each pointer event carries the intersection result the
raycaster produced for it; the handlers consume it exactly as the source
does.  Camera orbit arithmetic inside onMouseMove touches no state the
claims mention and is not modelled; the zoom-distance dynamics are
modelled separately below. -/

/-- The userData-bearing group of an entity marker. -/
inductive MarkerGroup
  | panelG (p : Panel)
  | sensorG (s : Sensor)
  deriving Repr, DecidableEq

/-- A child mesh of a marker group (the recursive intersection returns
meshes; marker groups have their meshes as direct children). -/
inductive MarkerChildMesh
  | indicator
  | ring
  | sensorMesh
  deriving Repr, DecidableEq

/-- An entry of markerIntersects: the hit child mesh together with the
group reached through object.parent. -/
structure MarkerHit where
  parent : MarkerGroup
  child : MarkerChildMesh
  deriving Repr, DecidableEq

/-- The viewer interaction state: refs (previousMouseRef, isDraggingRef,
selectedComponentRef, hoveredComponentRef), the shared-material emissive
colours, and the React selection state. -/
structure IState where
  previousMouse : ℚ × ℚ
  isDragging : Bool
  isRotating : Bool
  emissive : MatName → ℕ
  selectedComponentRef : Option Member
  hoveredComponent : Option Member
  hoveredComponentRef : Option Member
  selectedComponent : Option Member
  selectedPanel : Option Panel
  selectedSensor : Option Sensor
  selectedAlert : Option AlertRec

/-- Initial interaction state (ref and useState initialisers; material
emissive defaults to black). -/
def initialIState : IState :=
  { previousMouse := (0, 0)
    isDragging := false
    isRotating := true
    emissive := fun _ => 0x000000
    selectedComponentRef := none
    hoveredComponent := none
    hoveredComponentRef := none
    selectedComponent := none
    selectedPanel := none
    selectedSensor := none
    selectedAlert := none }

/-- The onMouseDown handler. -/
def onMouseDown (s : IState) (cx cy : ℚ) : IState :=
  { s with isDragging := true, previousMouse := (cx, cy), isRotating := false }

/-- The onMouseUp handler. -/
def onMouseUp (s : IState) : IState :=
  { s with isDragging := false }

/-- The onMouseMove handler: previousMouseRef is overwritten with the
current pointer position on every move, then (when not dragging) the
hover ray-cast result is applied. -/
def onMouseMove (s : IState) (cx cy : ℚ) (hit : Option Member) : IState :=
  let s := { s with previousMouse := (cx, cy) }
  if !s.isDragging then
    match hit with
    | some m =>
      if m.selectable then
        let s := { s with hoveredComponent := some m }
        if some m ≠ s.selectedComponentRef then
          { s with emissive := Function.update s.emissive m.mat 0x555555 }
        else s
      else s
    | none =>
      let s :=
        match s.hoveredComponentRef with
        | some h =>
          if some h ≠ s.selectedComponentRef then
            { s with emissive := Function.update s.emissive h.mat 0x000000 }
          else s
        | none => s
      { s with hoveredComponent := none }
  else s

/-- The onClick handler: the pixel-threshold early return against
previousMouseRef, then marker intersections (child hit resolved through
object.parent), then — only when no marker was hit — the component
intersection. -/
def onClick (panels : List Panel) (s : IState) (cx cy : ℚ)
    (markerHit : Option MarkerHit) (componentHit : Option Member) : IState :=
  if |cx - s.previousMouse.1| > 5 ∨ |cy - s.previousMouse.2| > 5 then s
  else
    match markerHit with
    | some h =>
      match h.parent with
      | .panelG p =>
        { s with selectedPanel := some p, selectedComponent := none,
                 selectedAlert := none }
      | .sensorG sen =>
        let panel := panels.find? (fun p => p.panel_id == sen.panel_id)
        { s with selectedSensor := some sen, selectedPanel := panel,
                 selectedComponent := none, selectedAlert := none }
    | none =>
      match componentHit with
      | some m =>
        if m.selectable then
          let s :=
            match s.selectedComponentRef with
            | some prev =>
              if prev ≠ m then
                { s with emissive := Function.update s.emissive prev.mat 0x000000 }
              else s
            | none => s
          { s with selectedComponentRef := some m
                   emissive := Function.update s.emissive m.mat 0x4488ff
                   selectedComponent := some m
                   selectedAlert := none
                   selectedPanel := none
                   selectedSensor := none }
        else s
      | none => s

/-- One animate tick effect on the interaction refs:
hoveredComponentRef.current = hoveredComponent. -/
def onFrame (s : IState) : IState :=
  { s with hoveredComponentRef := s.hoveredComponent }

/-- The ComponentPropertiesPanel onClose callback: clear the selected
emissive and the selection state (the ref itself is not cleared). -/
def onCloseProperties (s : IState) : IState :=
  let s :=
    match s.selectedComponentRef with
    | some m => { s with emissive := Function.update s.emissive m.mat 0x000000 }
    | none => s
  { s with selectedComponent := none }

/-- A user-interface event with the ray-cast outcome the handlers read. -/
inductive UiEvent
  | mouseDown (cx cy : ℚ)
  | mouseUp
  | mouseMove (cx cy : ℚ) (hit : Option Member)
  | click (cx cy : ℚ) (markerHit : Option MarkerHit) (componentHit : Option Member)
  | frame
  | closeProperties

/-- Dispatch one event to its handler. -/
def uiStep (panels : List Panel) (s : IState) : UiEvent → IState
  | .mouseDown cx cy => onMouseDown s cx cy
  | .mouseUp => onMouseUp s
  | .mouseMove cx cy hit => onMouseMove s cx cy hit
  | .click cx cy mh ch => onClick panels s cx cy mh ch
  | .frame => onFrame s
  | .closeProperties => onCloseProperties s

/-- Run an event sequence from a state. -/
def uiRun (panels : List Panel) (s : IState) (evs : List UiEvent) : IState :=
  evs.foldl (uiStep panels) s

/-! ### Camera zoom distance

Both handleZoom (in / out) and onWheel scale the camera position vector
and then clamp its length to the [10, 45] band; scaling and clamping act
radially, so the embedding tracks the camera distance itself. -/

/-- The clamp written after every zoom mutation. -/
def clampDistance (d : ℚ) : ℚ :=
  if d < 10 then 10 else if d > 45 then 45 else d

/-- A zoom request: a discrete handleZoom direction or a wheel event
with its deltaY. -/
inductive ZoomOp
  | zoomIn
  | zoomOut
  | wheel (deltaY : ℚ)
  deriving Repr, DecidableEq

/-- Effect of one zoom request on the camera distance: handleZoom
multiplies by 0.9 or 1.1; onWheel derives the factor from the sign of
deltaY * 0.1; both clamp afterwards. -/
def zoomStep (d : ℚ) : ZoomOp → ℚ
  | .zoomIn => clampDistance (d * (9/10))
  | .zoomOut => clampDistance (d * (11/10))
  | .wheel deltaY =>
    let delta := deltaY * (1/10)
    let factor : ℚ := if delta > 0 then 11/10 else 9/10
    clampDistance (d * factor)

/-! ### Concrete sample values used by the closed theorems -/

/-- A degenerate Math.random stream used to evaluate the generator on a
concrete run. -/
def sampleRand : ℕ → ℚ := fun _ => 0

/-- One concrete generator run. -/
def sampleRegistry : List Member :=
  createWarehouse sampleRand (fun _ => 0) 0

/-- The fifth registry member of the sample run (bay column STD-5,
shared material framingMat). -/
def stdFive : Member :=
  ⟨"STD-5", "Wall Stud", .framingMat, (-7, 13/5, -6), 1,
   [("Stress", 1/2), ("Temp", 65)], true⟩

/-- The sixth registry member of the sample run (bay column STD-6,
also on framingMat). -/
def stdSix : Member :=
  ⟨"STD-6", "Wall Stud", .framingMat, (7, 13/5, -6), 1,
   [("Stress", 1/2), ("Temp", 65)], true⟩

/-- A panel record with no position object (malformed input). -/
def badPanel : Panel := ⟨"P-9", "good", none⟩

/-- A well-formed panel record. -/
def goodPanel : Panel := ⟨"P-1", "good", some (1, 2, 3)⟩

/-- Projection of the generator state to everything the determinism
property observes: the id counter, the random-stream cursor and the
id / kind / position view of the registry. -/
def stripState (st : GenState) : ℕ × ℕ × List (String × String × (ℚ × ℚ × ℚ)) :=
  (st.idCounter, st.rndIx, st.components.map memberKey)

/-- Projection of the generator state to the id counter and the id
sequence only (used to show ids are independent of all abstracted
library inputs). -/
def idsState (st : GenState) : ℕ × List String :=
  (st.idCounter, st.components.map (fun m => m.id))

/-- The id sequence of the registry in placement order. -/
def registryIds : List String :=
  ["COL-1", "COL-2", "COL-3", "COL-4",
   "STD-5", "STD-6", "STD-7", "STD-8", "STD-9", "STD-10", "STD-11",
   "STD-12", "STD-13", "STD-14", "STD-15", "STD-16", "STD-17", "STD-18",
   "STD-19", "STD-20", "STD-21", "STD-22", "STD-23", "STD-24", "STD-25",
   "STD-26", "STD-27", "STD-28", "STD-29", "STD-30",
   "TP-31", "TP-32", "TP-33", "TP-34",
   "FJ-35", "FJ-36", "FJ-37", "FJ-38", "FJ-39", "FJ-40", "FJ-41",
   "FJ-42", "FJ-43",
   "RFT-44", "RFT-45", "CJ-46", "RFT-47", "RFT-48", "CJ-49",
   "RFT-50", "RFT-51", "CJ-52", "RFT-53", "RFT-54", "CJ-55",
   "RFT-56", "RFT-57", "CJ-58", "RFT-59", "RFT-60", "CJ-61",
   "RFT-62", "RFT-63", "CJ-64", "RFT-65", "RFT-66", "CJ-67",
   "RFT-68", "RFT-69", "CJ-70",
   "RDG-1", "COL-71", "COL-72"]

/-! ### Helper lemmas -/

/-- One addFraming call preserves the strip relation between two runs
that differ only in the random stream. -/
theorem addFraming_strip {r1 r2 : ℕ → ℚ} {s1 s2 : GenState} {mat : MatName}
    {pos : ℚ × ℚ × ℚ} {type : String} {idSpec : IdSpec}
    (h : stripState s1 = stripState s2) :
    stripState (addFraming r1 s1 mat pos type idSpec) =
      stripState (addFraming r2 s2 mat pos type idSpec) := by
  simp only [stripState, Prod.mk.injEq] at h
  obtain ⟨h1, h2, h3⟩ := h
  cases idSpec <;>
    simp [addFraming, stripState, memberKey, Prod.mk.injEq, List.map_append,
      h1, h2, h3]

/-- A fold preserves the strip relation whenever its step does. -/
theorem foldl_strip {α : Type} {f1 f2 : GenState → α → GenState} {l : List α}
    {s1 s2 : GenState}
    (hf : ∀ s1 s2 a, stripState s1 = stripState s2 →
      stripState (f1 s1 a) = stripState (f2 s2 a))
    (h : stripState s1 = stripState s2) :
    stripState (l.foldl f1 s1) = stripState (l.foldl f2 s2) := by
  induction l generalizing s1 s2 with
  | nil => exact h
  | cons a t ih => exact ih (hf s1 s2 a h)

/-- Equal strips give equal id / kind / position registry views. -/
theorem strip_components_eq {s1 s2 : GenState}
    (h : stripState s1 = stripState s2) :
    s1.components.map memberKey = s2.components.map memberKey := by
  simp only [stripState, Prod.mk.injEq] at h
  exact h.2.2

/-- One addFraming call preserves the ids relation even between runs
whose abstracted library inputs (hence positions) differ. -/
theorem addFraming_ids {r1 r2 : ℕ → ℚ} {s1 s2 : GenState} {mat : MatName}
    {pos1 pos2 : ℚ × ℚ × ℚ} {type : String} {idSpec : IdSpec}
    (h : idsState s1 = idsState s2) :
    idsState (addFraming r1 s1 mat pos1 type idSpec) =
      idsState (addFraming r2 s2 mat pos2 type idSpec) := by
  simp only [idsState, Prod.mk.injEq] at h
  obtain ⟨h1, h2⟩ := h
  cases idSpec <;>
    simp [addFraming, idsState, Prod.mk.injEq, List.map_append, h1, h2]

/-- A fold preserves the ids relation whenever its step does. -/
theorem foldl_ids {α : Type} {f1 f2 : GenState → α → GenState} {l : List α}
    {s1 s2 : GenState}
    (hf : ∀ s1 s2 a, idsState s1 = idsState s2 →
      idsState (f1 s1 a) = idsState (f2 s2 a))
    (h : idsState s1 = idsState s2) :
    idsState (l.foldl f1 s1) = idsState (l.foldl f2 s2) := by
  induction l generalizing s1 s2 with
  | nil => exact h
  | cons a t ih => exact ih (hf s1 s2 a h)

/-- Equal ids states give equal registry id sequences. -/
theorem ids_components_eq {s1 s2 : GenState}
    (h : idsState s1 = idsState s2) :
    s1.components.map (fun m => m.id) = s2.components.map (fun m => m.id) := by
  simp only [idsState, Prod.mk.injEq] at h
  exact h.2

/-! ### Claim theorems -/

/-- C1: createWarehouse is deterministic up to the cosmetic live-reading
randomisation: two runs over any two Math.random streams (with the same
math library) produce registries with identical member ids, kinds and
world positions, in identical order. -/
theorem createWarehouse_registry_deterministic
    (mcos : ℚ → ℚ) (piQ : ℚ) (r1 r2 : ℕ → ℚ) :
    (createWarehouse r1 mcos piQ).map memberKey =
      (createWarehouse r2 mcos piQ).map memberKey := by
  simp only [createWarehouse]
  refine strip_components_eq ?_
  apply addFraming_strip
  apply addFraming_strip
  apply addFraming_strip
  refine foldl_strip (fun s1 s2 z h =>
    addFraming_strip (addFraming_strip (addFraming_strip h))) ?_
  refine foldl_strip (fun s1 s2 z h => addFraming_strip h) ?_
  refine foldl_strip (fun s1 s2 x h => addFraming_strip h) ?_
  refine foldl_strip (fun s1 s2 z h => addFraming_strip h) ?_
  refine foldl_strip (fun s1 s2 xi h =>
    foldl_strip (fun s1 s2 z h => addFraming_strip h) h) ?_
  refine foldl_strip (fun s1 s2 zi h =>
    foldl_strip (fun s1 s2 x h => addFraming_strip h) h) ?_
  refine foldl_strip (fun s1 s2 x h =>
    foldl_strip (fun s1 s2 z h => addFraming_strip h) h) ?_
  rfl

/-- C2: every registry member carries an id distinct from every other
member, including the hard-coded RDG-1 alongside the counter-generated
ids, and the id sequence is exactly the placement-order sequence for any
run of the generator. -/
theorem registry_ids_unique_in_placement_order
    (rand : ℕ → ℚ) (mcos : ℚ → ℚ) (piQ : ℚ) :
    (createWarehouse rand mcos piQ).map (fun m => m.id) = registryIds ∧
    registryIds.Nodup ∧ "RDG-1" ∈ registryIds := by
  refine ⟨?_, by decide, by decide⟩
  have hconc : (createWarehouse sampleRand (fun _ => 0) 0).map (fun m => m.id)
      = registryIds := by
    with_unfolding_all decide
  rw [← hconc]
  simp only [createWarehouse]
  refine ids_components_eq ?_
  apply addFraming_ids
  apply addFraming_ids
  apply addFraming_ids
  refine foldl_ids (fun s1 s2 z h =>
    addFraming_ids (addFraming_ids (addFraming_ids h))) ?_
  refine foldl_ids (fun s1 s2 z h => addFraming_ids h) ?_
  refine foldl_ids (fun s1 s2 x h => addFraming_ids h) ?_
  refine foldl_ids (fun s1 s2 z h => addFraming_ids h) ?_
  refine foldl_ids (fun s1 s2 xi h =>
    foldl_ids (fun s1 s2 z h => addFraming_ids h) h) ?_
  refine foldl_ids (fun s1 s2 zi h =>
    foldl_ids (fun s1 s2 x h => addFraming_ids h) h) ?_
  refine foldl_ids (fun s1 s2 x h =>
    foldl_ids (fun s1 s2 z h => addFraming_ids h) h) ?_
  rfl

/-- C3 counterexample: on the ground-floor back wall the second opening
starts at 2, which falls exactly on a nominal stud grid position, yet no
trimmer is placed at the boundary coordinate 2 itself — the trimmer sits
at 2 - studS = 1.95 — refuting the tie-break clause that a boundary on a
stud position yields a trimmer exactly at the boundary coordinate. -/
theorem trimmer_not_at_boundary_counterexample :
    (∃ op ∈ backOpenings, op.start = 2) ∧
    (2 : ℚ) ∈ gridPoints (-hW) hW studSpacing ∧
    (∀ s ∈ buildWallStuds "x" hD (-hW) hW floorTwoH 0 backOpenings true,
      ¬(s.role = .trimmer ∧ runCoord true s = 2)) ∧
    (∃ s ∈ buildWallStuds "x" hD (-hW) hW floorTwoH 0 backOpenings true,
      s.role = .trimmer ∧ runCoord true s = 2 - studS) ∧
    (∀ s ∈ buildWallStuds "x" hD (-hW) hW floorTwoH 0 backOpenings true,
      ¬(s.role = .nominal ∧ runCoord true s = 2)) := by
  with_unfolding_all decide

/-- C3 amended: across all eight perimeter-wall invocations, no nominal
stud lands in the padded opening range [start - studS, end + studS]
(hence none strictly inside an opening and none at a boundary); every
opening boundary receives a trimmer at the boundary offset outward by
studS, and trimmers appear only at such offset coordinates; every
opening receives exactly one header centred on it; a boundary that falls
exactly on a nominal stud grid position yields exactly one trimmer, at
the offset coordinate; and the single-door scenario on the ground-floor
front wall yields trimmers at x = -0.55 and x = 0.55, one header beam
centred at x = 0 at the header height 4.6, and zero nominal studs with
|x| < 0.5. -/
theorem wall_openings_amended :
    (∀ w ∈ wallCalls,
      (∀ s ∈ runWall w, s.role = .nominal →
        ∀ op ∈ w.openings,
          ¬(op.start - studS ≤ runCoord w.isXAxis s ∧
            runCoord w.isXAxis s ≤ op.stop + studS)) ∧
      (∀ op ∈ w.openings,
        (∃ s ∈ runWall w, s.role = .trimmer ∧
          runCoord w.isXAxis s = op.start - studS) ∧
        (∃ s ∈ runWall w, s.role = .trimmer ∧
          runCoord w.isXAxis s = op.stop + studS)) ∧
      (∀ s ∈ runWall w, s.role = .trimmer →
        ∃ op ∈ w.openings,
          runCoord w.isXAxis s = op.start - studS ∨
          runCoord w.isXAxis s = op.stop + studS) ∧
      (∀ op ∈ w.openings,
        ((runWall w).filter (fun s => s.role == .header &&
          runCoord w.isXAxis s == (op.start + op.stop) / 2)).length = 1) ∧
      (∀ op ∈ w.openings,
        (op.start ∈ gridPoints w.rangeStart w.rangeEnd studSpacing →
          ((runWall w).filter (fun s => s.role == .trimmer &&
            runCoord w.isXAxis s == op.start - studS)).length = 1) ∧
        (op.stop ∈ gridPoints w.rangeStart w.rangeEnd studSpacing →
          ((runWall w).filter (fun s => s.role == .trimmer &&
            runCoord w.isXAxis s == op.stop + studS)).length = 1))) ∧
    (∃ s ∈ buildWallStuds "x" (-hD) (-hW) hW floorTwoH 0 frontOpenings true,
      s.role = .trimmer ∧ s.pos = (-(11/20), 7/5, -8)) ∧
    (∃ s ∈ buildWallStuds "x" (-hD) (-hW) hW floorTwoH 0 frontOpenings true,
      s.role = .trimmer ∧ s.pos = (11/20, 7/5, -8)) ∧
    ((buildWallStuds "x" (-hD) (-hW) hW floorTwoH 0 frontOpenings true).filter
      (fun s => s.role == .header && s.pos == ((0 : ℚ), (23/5 : ℚ), (-8 : ℚ)))).length = 1 ∧
    (∀ s ∈ buildWallStuds "x" (-hD) (-hW) hW floorTwoH 0 frontOpenings true,
      s.role = .nominal → ¬(|s.pos.1| < 1/2)) := by
  with_unfolding_all decide

/-- C4: the click handler compares the click position against
previousMouseRef, which every intervening mousemove overwrites, so a
pointer that went down at (100, 100), moved to (200, 100) and clicked
there — 100 px of drag between pointer-down and click — is still treated
as a selection attempt and selects the member under the pointer. -/
theorem click_after_drag_still_selects :
    sampleRegistry.get? 4 = some stdFive ∧
    |(200 : ℚ) - 100| > 5 ∧
    (uiRun [] initialIState
      [.mouseDown 100 100, .mouseMove 200 100 none]).previousMouse = (200, 100) ∧
    (uiRun [] initialIState
      [.mouseDown 100 100, .mouseMove 200 100 none, .mouseUp,
       .click 200 100 none (some stdFive)]).selectedComponent = some stdFive := by
  with_unfolding_all decide

/-- C5: on a click treated as a selection attempt whose marker ray test
hit a child mesh, the selection is resolved from the parent marker group
alone, the structural-member ray result is irrelevant, no member gets
selected, and the member selection ref and emissive tints are left
untouched — a marker hit never falls through to member selection. -/
theorem click_markers_tested_first
    (panels : List Panel) (s : IState) (cx cy : ℚ) (h : MarkerHit)
    (ch ch' : Option Member) (child' : MarkerChildMesh)
    (hx : |cx - s.previousMouse.1| ≤ 5) (hy : |cy - s.previousMouse.2| ≤ 5) :
    onClick panels s cx cy (some h) ch = onClick panels s cx cy (some h) ch' ∧
    onClick panels s cx cy (some ⟨h.parent, child'⟩) ch =
      onClick panels s cx cy (some h) ch ∧
    (onClick panels s cx cy (some h) ch).selectedComponent = none ∧
    (onClick panels s cx cy (some h) ch).selectedComponentRef =
      s.selectedComponentRef ∧
    (onClick panels s cx cy (some h) ch).emissive = s.emissive ∧
    (match h.parent with
     | .panelG p => (onClick panels s cx cy (some h) ch).selectedPanel = some p
     | .sensorG sen =>
       (onClick panels s cx cy (some h) ch).selectedSensor = some sen ∧
       (onClick panels s cx cy (some h) ch).selectedPanel =
         panels.find? (fun p => p.panel_id == sen.panel_id)) := by
  have hc : ¬(|cx - s.previousMouse.1| > 5 ∨ |cy - s.previousMouse.2| > 5) := by
    rintro (hgt | hgt)
    · exact absurd hgt (not_lt.2 hx)
    · exact absurd hgt (not_lt.2 hy)
  obtain ⟨g, c⟩ := h
  cases g <;> simp [onClick, hc]

/-- C5 witness. -/
theorem click_markers_tested_first_witness :
    |(0 : ℚ) - initialIState.previousMouse.1| ≤ 5 ∧
    |(0 : ℚ) - initialIState.previousMouse.2| ≤ 5 ∧
    (onClick [goodPanel] initialIState 0 0
        (some ⟨.panelG goodPanel, .ring⟩) (some stdFive) =
      onClick [goodPanel] initialIState 0 0
        (some ⟨.panelG goodPanel, .ring⟩) none ∧
     onClick [goodPanel] initialIState 0 0
        (some ⟨(MarkerHit.mk (.panelG goodPanel) .ring).parent, .indicator⟩)
        (some stdFive) =
      onClick [goodPanel] initialIState 0 0
        (some ⟨.panelG goodPanel, .ring⟩) (some stdFive) ∧
     (onClick [goodPanel] initialIState 0 0
        (some ⟨.panelG goodPanel, .ring⟩) (some stdFive)).selectedComponent =
        none ∧
     (onClick [goodPanel] initialIState 0 0
        (some ⟨.panelG goodPanel, .ring⟩)
        (some stdFive)).selectedComponentRef =
        initialIState.selectedComponentRef ∧
     (onClick [goodPanel] initialIState 0 0
        (some ⟨.panelG goodPanel, .ring⟩) (some stdFive)).emissive =
        initialIState.emissive ∧
     (match (MarkerHit.mk (.panelG goodPanel) .ring).parent with
      | .panelG p =>
        (onClick [goodPanel] initialIState 0 0
          (some ⟨.panelG goodPanel, .ring⟩) (some stdFive)).selectedPanel =
          some p
      | .sensorG sen =>
        (onClick [goodPanel] initialIState 0 0
          (some ⟨.panelG goodPanel, .ring⟩) (some stdFive)).selectedSensor =
          some sen ∧
        (onClick [goodPanel] initialIState 0 0
          (some ⟨.panelG goodPanel, .ring⟩) (some stdFive)).selectedPanel =
          [goodPanel].find? (fun p => p.panel_id == sen.panel_id))) := by
  refine ⟨by norm_num [initialIState], by norm_num [initialIState], ?_⟩
  exact click_markers_tested_first [goodPanel] initialIState 0 0
    ⟨.panelG goodPanel, .ring⟩ (some stdFive) none .indicator
    (by norm_num [initialIState]) (by norm_num [initialIState])

/-- C6 helper: the clamp maps every distance into the band. -/
theorem clampDistance_mem (d : ℚ) :
    10 ≤ clampDistance d ∧ clampDistance d ≤ 45 := by
  unfold clampDistance
  split_ifs with h1 h2
  · exact ⟨le_refl 10, by norm_num⟩
  · exact ⟨by norm_num, le_refl 45⟩
  · exact ⟨le_of_not_lt h1, le_of_not_lt h2⟩

/-- C6 helper: every zoom step lands in the band. -/
theorem zoomStep_mem (d : ℚ) (op : ZoomOp) :
    10 ≤ zoomStep d op ∧ zoomStep d op ≤ 45 := by
  cases op <;> exact clampDistance_mem _

/-- C6 helper: a nonempty fold of zoom steps lands in the band. -/
theorem zoom_foldl_cons_mem :
    ∀ (l : List ZoomOp) (d : ℚ) (op : ZoomOp),
      10 ≤ (op :: l).foldl zoomStep d ∧ (op :: l).foldl zoomStep d ≤ 45 := by
  intro l
  induction l with
  | nil => exact fun d op => zoomStep_mem d op
  | cons b m ih => exact fun d op => ih (zoomStep d op) b

/-- C6: after any nonempty finite sequence of discrete zoom-in or
zoom-out requests and wheel zoom events, from any starting distance, the
camera distance lies within the configured [10, 45] band. -/
theorem zoom_distance_stays_in_band (d : ℚ) (ops : List ZoomOp)
    (hne : ops ≠ []) :
    10 ≤ ops.foldl zoomStep d ∧ ops.foldl zoomStep d ≤ 45 := by
  cases ops with
  | nil => exact absurd rfl hne
  | cons op l => exact zoom_foldl_cons_mem l d op

/-- C6 witness. -/
theorem zoom_distance_stays_in_band_witness :
    ([ZoomOp.zoomIn, ZoomOp.wheel 120, ZoomOp.zoomOut] ≠ ([] : List ZoomOp)) ∧
    (10 ≤ [ZoomOp.zoomIn, ZoomOp.wheel 120, ZoomOp.zoomOut].foldl zoomStep 30 ∧
     [ZoomOp.zoomIn, ZoomOp.wheel 120, ZoomOp.zoomOut].foldl zoomStep 30 ≤ 45) :=
  ⟨by decide, zoom_distance_stays_in_band 30 _ (by decide)⟩

/-- C7: the addFraming meshes share material instances, and the click
handler mutates material.emissive on the shared object, so selecting the
registry member STD-5 leaves both STD-5 and the distinct member STD-6
carrying the selected emissive tint 0x4488ff, and a subsequent hover
over STD-6 overwrites the displayed tint of the selected member STD-5
with the hover tint 0x555555. -/
theorem shared_material_multiple_selected_tint :
    sampleRegistry.get? 4 = some stdFive ∧
    sampleRegistry.get? 5 = some stdSix ∧
    stdFive ≠ stdSix ∧
    (uiRun [] initialIState
      [.click 0 0 none (some stdFive)]).selectedComponentRef = some stdFive ∧
    (uiRun [] initialIState
      [.click 0 0 none (some stdFive)]).emissive stdFive.mat = 0x4488ff ∧
    (uiRun [] initialIState
      [.click 0 0 none (some stdFive)]).emissive stdSix.mat = 0x4488ff ∧
    (uiRun [] initialIState
      [.click 0 0 none (some stdFive),
       .mouseMove 0 0 (some stdSix)]).emissive stdFive.mat = 0x555555 := by
  with_unfolding_all decide

/-- C8 helper: the ping search leaves a list with no matching panel id
untouched. -/
theorem applyPingFirst_of_not_mem {pid : String} {upd : PanelMarker → PanelMarker} :
    ∀ l : List PanelMarker, (∀ x ∈ l, x.panel.panel_id ≠ pid) →
      applyPingFirst pid upd l = l := by
  intro l
  induction l with
  | nil => intro _; rfl
  | cons m ms ih =>
    intro hl
    have hm : (m.panel.panel_id == pid) = false := by
      simp [hl m (List.mem_cons_self m ms)]
    simp [applyPingFirst, hm, ih (fun x hx => hl x (List.mem_cons_of_mem m hx))]

/-- C8 helper: the ping search updates exactly the first matching
marker. -/
theorem applyPingFirst_append {pid : String} {upd : PanelMarker → PanelMarker} :
    ∀ (l1 : List PanelMarker) (x : PanelMarker) (l2 : List PanelMarker),
      (∀ y ∈ l1, y.panel.panel_id ≠ pid) → x.panel.panel_id = pid →
      applyPingFirst pid upd (l1 ++ x :: l2) = l1 ++ upd x :: l2 := by
  intro l1
  induction l1 with
  | nil =>
    intro x l2 _ hx
    simp [applyPingFirst, hx]
  | cons m ms ih =>
    intro x l2 hl hx
    have hm : (m.panel.panel_id == pid) = false := by
      simp [hl m (List.mem_cons_self m ms)]
    simp [applyPingFirst, hm,
      ih x l2 (fun y hy => hl y (List.mem_cons_of_mem m hy)) hx]

/-- C8: a ping whose panel id matches no marker changes nothing relative
to the ambient frame (total, no crash); a ping for a known id applies
the expanding-ring and fading-opacity state to exactly the first marker
with that panel id, leaving the rest at the ambient pulse; and once the
2000 ms timeout has elapsed the ping state is cleared and the frame
equals the ambient frame, with no further call. -/
theorem ping_effect_behaviour
    (msin : ℚ → ℚ) (now now2 t0 : ℕ) (pidU pid : String)
    (markers pre post : List PanelMarker) (m : PanelMarker)
    (hU : ∀ x ∈ markers, x.panel.panel_id ≠ pidU)
    (hdec : markers = pre ++ m :: post)
    (hpre : ∀ x ∈ pre, x.panel.panel_id ≠ pid)
    (hm : m.panel.panel_id = pid)
    (hterm : t0 + 2000 ≤ now2) :
    animateRings msin (some pidU) now markers =
      animateRings msin none now markers ∧
    animateRings msin (some pid) now markers =
      (pre.map (ambientRing msin ((now : ℚ) / 1000))) ++
        pingUpdate now (ambientRing msin ((now : ℚ) / 1000) m) ::
          (post.map (ambientRing msin ((now : ℚ) / 1000))) ∧
    pingingPanelIdAt pid t0 now2 = none ∧
    animateRings msin (pingingPanelIdAt pid t0 now2) now2 markers =
      animateRings msin none now2 markers := by
  have hclear : pingingPanelIdAt pid t0 now2 = none := by
    unfold pingingPanelIdAt
    rw [if_neg (Nat.not_lt.2 hterm)]
  refine ⟨?_, ?_, hclear, by rw [hclear]⟩
  · unfold animateRings
    refine applyPingFirst_of_not_mem _ ?_
    intro x hx
    obtain ⟨y, hy, rfl⟩ := List.mem_map.1 hx
    exact hU y hy
  · unfold animateRings
    subst hdec
    rw [List.map_append, List.map_cons]
    refine applyPingFirst_append _ _ _ ?_ hm
    intro y hy
    obtain ⟨z, hz, rfl⟩ := List.mem_map.1 hy
    exact hpre z hz

/-- C8 witness: two panel markers, an unknown ping id P-9, a known ping
id P-2 matching the second marker, pinged at t0 = 0 and observed at
2500 ms. -/
theorem ping_effect_behaviour_witness :
    (∀ x ∈ [(⟨goodPanel, (1, 2, 3), 0x10b981, (1, 1, 1), 3/10⟩ : PanelMarker),
            ⟨⟨"P-2", "warning", some (4, 5, 6)⟩, (4, 5, 6), 0xf59e0b, (1, 1, 1), 3/10⟩],
      x.panel.panel_id ≠ "P-9") ∧
    (animateRings (fun _ => 0) (some "P-9") 500
        [⟨goodPanel, (1, 2, 3), 0x10b981, (1, 1, 1), 3/10⟩,
         ⟨⟨"P-2", "warning", some (4, 5, 6)⟩, (4, 5, 6), 0xf59e0b, (1, 1, 1), 3/10⟩] =
      animateRings (fun _ => 0) none 500
        [⟨goodPanel, (1, 2, 3), 0x10b981, (1, 1, 1), 3/10⟩,
         ⟨⟨"P-2", "warning", some (4, 5, 6)⟩, (4, 5, 6), 0xf59e0b, (1, 1, 1), 3/10⟩] ∧
     animateRings (fun _ => 0) (some "P-2") 500
        [⟨goodPanel, (1, 2, 3), 0x10b981, (1, 1, 1), 3/10⟩,
         ⟨⟨"P-2", "warning", some (4, 5, 6)⟩, (4, 5, 6), 0xf59e0b, (1, 1, 1), 3/10⟩] =
      ([(⟨goodPanel, (1, 2, 3), 0x10b981, (1, 1, 1), 3/10⟩ : PanelMarker)].map
          (ambientRing (fun _ => 0) ((500 : ℚ) / 1000))) ++
        pingUpdate 500 (ambientRing (fun _ => 0) ((500 : ℚ) / 1000)
          ⟨⟨"P-2", "warning", some (4, 5, 6)⟩, (4, 5, 6), 0xf59e0b, (1, 1, 1), 3/10⟩) ::
          (([] : List PanelMarker).map (ambientRing (fun _ => 0) ((500 : ℚ) / 1000))) ∧
     pingingPanelIdAt "P-2" 0 2500 = none ∧
     animateRings (fun _ => 0) (pingingPanelIdAt "P-2" 0 2500) 2500
        [⟨goodPanel, (1, 2, 3), 0x10b981, (1, 1, 1), 3/10⟩,
         ⟨⟨"P-2", "warning", some (4, 5, 6)⟩, (4, 5, 6), 0xf59e0b, (1, 1, 1), 3/10⟩] =
      animateRings (fun _ => 0) none 2500
        [⟨goodPanel, (1, 2, 3), 0x10b981, (1, 1, 1), 3/10⟩,
         ⟨⟨"P-2", "warning", some (4, 5, 6)⟩, (4, 5, 6), 0xf59e0b, (1, 1, 1), 3/10⟩]) := by
  refine ⟨by decide, ?_⟩
  exact ping_effect_behaviour (fun _ => 0) 500 2500 0 "P-9" "P-2"
    [⟨goodPanel, (1, 2, 3), 0x10b981, (1, 1, 1), 3/10⟩,
     ⟨⟨"P-2", "warning", some (4, 5, 6)⟩, (4, 5, 6), 0xf59e0b, (1, 1, 1), 3/10⟩]
    [⟨goodPanel, (1, 2, 3), 0x10b981, (1, 1, 1), 3/10⟩]
    []
    ⟨⟨"P-2", "warning", some (4, 5, 6)⟩, (4, 5, 6), 0xf59e0b, (1, 1, 1), 3/10⟩
    (by decide) rfl (by decide) rfl (by decide)

/-- C10: marker construction and the overlay projection read the
coordinate fields unconditionally: a panel record with no position
object makes marker construction throw instead of being skipped, an
alert record with no coordinates object makes the projection loop throw,
and a well-formed record is placed exactly at its supplied position —
no skipping path exists. -/
theorem marker_missing_position_throws :
    buildPanelMarkers [badPanel] =
      .error "TypeError: cannot read properties of undefined" ∧
    buildPanelMarkers [goodPanel] =
      .ok [⟨goodPanel, (1, 2, 3), 0x10b981, (1, 1, 1), 3/10⟩] ∧
    buildSensorMarkers [⟨"S-1", "online", "P-1", none⟩] =
      .error "TypeError: cannot read properties of undefined" ∧
    updateMarkerPositions (fun c => c) 100 100 [⟨"A-1", none⟩] =
      .error "TypeError: cannot read properties of undefined" := by
  refine ⟨?_, ?_, ?_, ?_⟩ <;> with_unfolding_all rfl

end DigitalTwin
